import Mathlib

/-!
# Verification of the `xdir` directory resolver

A shallow embedding of `src/lib.rs`: the resolver exposes seven lookups
(`home`, `cache`, `config`, `bin`, `data`, `state`, `runtime`), each a pure
function of the process environment snapshot and of the answer of the home
directory provider (the external `home::home_dir` dependency).  Paths
(`PathBuf`) are modelled as strings, the environment as a total map from
variable names to a three-valued result (absent, present but not unicode,
or a unicode string), matching what `std::env::var` can observe.
-/

/-- The value a process environment associates with a variable name:
absent, present but not representable as unicode, or a unicode string. -/
inductive EnvVal
  | notPresent
  | notUnicode
  | val (s : String)
deriving DecidableEq

/-- An environment snapshot: a total map from variable names to values. -/
def Env : Type := String → EnvVal

/-- The error cases of `std::env::VarError`. -/
inductive VarError
  | notPresent
  | notUnicode
deriving DecidableEq

/-- `std::env::var(name)`: `Ok` with the string when the variable is present
and unicode, the corresponding `VarError` otherwise. -/
def envVarResult (env : Env) (name : String) : Except VarError String :=
  match env name with
  | .val s => .ok s
  | .notPresent => .error .notPresent
  | .notUnicode => .error .notUnicode

/-- `PathBuf::join` with the Unix semantics of `PathBuf::push`: an absolute
component replaces the path; otherwise the component is appended, inserting
a separator unless the base is empty or already ends with one. -/
def joinPath (base child : String) : String :=
  if child.data.head? = some '/' then child
  else if base.data = [] ∨ base.data.getLast? = some '/' then base ++ child
  else base ++ "/" ++ child

/-- `pub use home::home_dir as home`: the resolver's `home` is exactly the
home directory provider's answer. -/
def home (provider : Option String) : Option String := provider

/-- The `path!` expansion from `src/lib.rs`:
`env::var(var).into_iter().filter(|path| !path.is_empty())
.map(PathBuf::from).next().or_else(|| home().map(|path| path.join(dir)))`.
`Result::into_iter().next()` is `Except.toOption`, and `PathBuf::from` is
the identity on the string model of paths. -/
def path (env : Env) (provider : Option String) (var dir : String) :
    Option String :=
  (((envVarResult env var).toOption).filter (fun p => !p.isEmpty)).orElse
    (fun _ => (home provider).map (fun p => joinPath p dir))

/-- `pub fn bin`: `path!("XDG_BIN_HOME", ".local/bin")`. -/
def bin (env : Env) (provider : Option String) : Option String :=
  path env provider "XDG_BIN_HOME" ".local/bin"

/-- `pub fn cache`: `path!("XDG_CACHE_HOME", ".cache")`. -/
def cache (env : Env) (provider : Option String) : Option String :=
  path env provider "XDG_CACHE_HOME" ".cache"

/-- `pub fn config`: `path!("XDG_CONFIG_HOME", ".config")`. -/
def config (env : Env) (provider : Option String) : Option String :=
  path env provider "XDG_CONFIG_HOME" ".config"

/-- `pub fn data`: `path!("XDG_DATA_HOME", ".local/share")`. -/
def data (env : Env) (provider : Option String) : Option String :=
  path env provider "XDG_DATA_HOME" ".local/share"

/-- `pub fn runtime`:
`env::var("XDG_RUNTIME_DIR").map(PathBuf::from).ok()` — note: no emptiness
filter, unlike the `path!` categories. -/
def runtime (env : Env) (_provider : Option String) : Option String :=
  ((envVarResult env "XDG_RUNTIME_DIR").map (fun s => s)).toOption

/-- `pub fn state`: `path!("XDG_STATE_HOME", ".local/state")`. -/
def state (env : Env) (provider : Option String) : Option String :=
  path env provider "XDG_STATE_HOME" ".local/state"

/-- The five categories governed by the general two-tier rule. -/
inductive Category
  | cache
  | config
  | bin
  | data
  | state
deriving DecidableEq

/-- The designated environment variable of each general-rule category. -/
def Category.var : Category → String
  | .cache => "XDG_CACHE_HOME"
  | .config => "XDG_CONFIG_HOME"
  | .bin => "XDG_BIN_HOME"
  | .data => "XDG_DATA_HOME"
  | .state => "XDG_STATE_HOME"

/-- The fixed fallback subpath of each general-rule category. -/
def Category.dir : Category → String
  | .cache => ".cache"
  | .config => ".config"
  | .bin => ".local/bin"
  | .data => ".local/share"
  | .state => ".local/state"

/-- Dispatch to the resolver function of a general-rule category. -/
def runCategory : Category → Env → Option String → Option String
  | .cache, env, provider => cache env provider
  | .config, env, provider => config env provider
  | .bin, env, provider => bin env provider
  | .data, env, provider => data env provider
  | .state, env, provider => state env provider

/-- All seven public operations of the resolver. -/
inductive Op
  | home
  | cache
  | config
  | bin
  | data
  | state
  | runtime
deriving DecidableEq

/-- Dispatch to any of the seven public operations. -/
def runOp : Op → Env → Option String → Option String
  | .home, _, provider => home provider
  | .cache, env, provider => cache env provider
  | .config, env, provider => config env provider
  | .bin, env, provider => bin env provider
  | .data, env, provider => data env provider
  | .state, env, provider => state env provider
  | .runtime, env, provider => runtime env provider

/-- Replace one variable's value in an environment snapshot. -/
def setVar (env : Env) (name : String) (v : EnvVal) : Env :=
  fun n => if n = name then v else env n

/-- Each general-rule operation is the `path!` expansion at its variable
and fallback subpath. -/
theorem runCategory_eq_path (c : Category) (env : Env)
    (provider : Option String) :
    runCategory c env provider = path env provider c.var c.dir := by
  cases c <;> rfl

/-- An environment snapshot with every variable unset. -/
def envAllUnset : Env := fun _ => EnvVal.notPresent

/-- Only `XDG_CACHE_HOME` is present, but not unicode. -/
def envCacheBad : Env :=
  fun n => if n = "XDG_CACHE_HOME" then EnvVal.notUnicode else EnvVal.notPresent

/-- Only `XDG_RUNTIME_DIR` is present, but not unicode. -/
def envRuntimeBad : Env :=
  fun n =>
    if n = "XDG_RUNTIME_DIR" then EnvVal.notUnicode else EnvVal.notPresent

/-- Only `XDG_RUNTIME_DIR` is set, to the empty string. -/
def envRuntimeEmpty : Env :=
  fun n => if n = "XDG_RUNTIME_DIR" then EnvVal.val "" else EnvVal.notPresent

/-- Only `XDG_RUNTIME_DIR` is set, to a typical session path. -/
def envRuntimeSet : Env :=
  fun n =>
    if n = "XDG_RUNTIME_DIR" then EnvVal.val "/run/user/1000"
    else EnvVal.notPresent

/-- Only `XDG_CACHE_HOME` is set, to a non-empty path. -/
def envCacheSet : Env :=
  fun n => if n = "XDG_CACHE_HOME" then EnvVal.val "/tmp/c" else EnvVal.notPresent

/-- Only `XDG_CACHE_HOME` is set, to a single space (whitespace-only). -/
def envCacheBlank : Env :=
  fun n => if n = "XDG_CACHE_HOME" then EnvVal.val " " else EnvVal.notPresent

/-- When the designated variable holds a non-empty unicode string, `path!`
returns exactly that string: the fallback tier is never consulted. -/
theorem path_eq_of_val (env : Env) (provider : Option String)
    (var dir s : String) (hv : env var = EnvVal.val s) (hs : s ≠ "") :
    path env provider var dir = some s := by
  have hne : s.isEmpty = false := by
    cases he : s.isEmpty with
    | false => rfl
    | true => exact absurd ((String.isEmpty_iff s).mp he) hs
  simp [path, envVarResult, hv, Except.toOption, Option.filter, hne,
    Option.orElse]

/-- When the designated variable is unset, empty, or not unicode, `path!`
falls through to the home tier: the provider's answer joined with the
fallback subpath, or an absent result. -/
theorem path_eq_of_fallback (env : Env) (provider : Option String)
    (var dir : String)
    (hv : env var = EnvVal.notPresent ∨ env var = EnvVal.val ""
        ∨ env var = EnvVal.notUnicode) :
    path env provider var dir = provider.map (fun p => joinPath p dir) := by
  rcases hv with hv | hv | hv <;>
    simp [path, envVarResult, hv, Except.toOption, Option.filter,
      Option.orElse, home, String.isEmpty]

example : cache (fun _ => EnvVal.notPresent) (some "/home/alice")
    = some "/home/alice/.cache" := by decide

example : cache (fun n => if n = "XDG_CACHE_HOME" then EnvVal.val "/tmp/c"
    else EnvVal.notPresent) (some "/home/alice") = some "/tmp/c" := by decide

example : runtime (fun n => if n = "XDG_RUNTIME_DIR" then EnvVal.val ""
    else EnvVal.notPresent) (some "/home/alice") = some "" := by decide

example : runtime (fun _ => EnvVal.notPresent) (some "/home/alice")
    = none := by decide

/-- C1: counterexample — the claim says `runtime` is absent when
`XDG_RUNTIME_DIR` is set to the empty string, but with the variable set to
`""` and home resolving, `runtime` returns the empty path, not `none`. -/
theorem runtime_empty_counterexample :
    envRuntimeEmpty "XDG_RUNTIME_DIR" = EnvVal.val ""
      ∧ runtime envRuntimeEmpty (some "/home/alice") = some ""
      ∧ runtime envRuntimeEmpty (some "/home/alice") ≠ none :=
  ⟨rfl, by decide, by decide⟩

/-- C1 (amended): `runtime` mirrors `XDG_RUNTIME_DIR` exactly — it returns
the variable's value as a path whenever the variable is present with a
unicode value, including the empty string (which yields the empty path),
and an absent result when the variable is unset or not unicode, in all
cases independently of whether the home directory resolves. -/
theorem runtime_mirrors_variable (env : Env) (p1 p2 : Option String) :
    (∀ s, env "XDG_RUNTIME_DIR" = EnvVal.val s → runtime env p1 = some s)
    ∧ ((env "XDG_RUNTIME_DIR" = EnvVal.notPresent
          ∨ env "XDG_RUNTIME_DIR" = EnvVal.notUnicode)
        → runtime env p1 = none)
    ∧ runtime env p1 = runtime env p2 := by
  refine ⟨?_, ?_, rfl⟩
  · intro s hs
    simp [runtime, envVarResult, hs, Except.map, Except.toOption]
  · rintro (hs | hs) <;>
      simp [runtime, envVarResult, hs, Except.map, Except.toOption]

/-- C1: witness for the amended claim at concrete environments. -/
theorem runtime_mirrors_variable_witness :
    runtime envRuntimeSet (some "/home/alice") = some "/run/user/1000"
      ∧ runtime envAllUnset (some "/home/alice") = none :=
  ⟨(runtime_mirrors_variable envRuntimeSet (some "/home/alice") none).1
      "/run/user/1000" (by decide),
    (runtime_mirrors_variable envAllUnset (some "/home/alice") none).2.1
      (Or.inl rfl)⟩

/-- C2: for every general-rule category (cache, config, bin, data, state),
if its designated variable is set to a non-empty string `S`, the operation
returns exactly the path `S`, with no modification of the value. -/
theorem category_returns_value_exactly (c : Category) (env : Env)
    (provider : Option String) (s : String)
    (hv : env c.var = EnvVal.val s) (hs : s ≠ "") :
    runCategory c env provider = some s := by
  rw [runCategory_eq_path]
  exact path_eq_of_val env provider c.var c.dir s hv hs

/-- C2: witness — `XDG_CACHE_HOME=/tmp/c` gives `cache() = /tmp/c`. -/
theorem category_returns_value_exactly_witness :
    runCategory Category.cache envCacheSet (some "/home/alice")
      = some "/tmp/c" :=
  category_returns_value_exactly Category.cache envCacheSet
    (some "/home/alice") "/tmp/c" (by decide) (by decide)

/-- C3: for every general-rule category, if its designated variable is
unset and home resolves to `H`, the operation returns exactly `H` joined
with the category's fixed fallback subpath. -/
theorem category_falls_back_to_home (c : Category) (env : Env) (H : String)
    (hv : env c.var = EnvVal.notPresent) :
    runCategory c env (some H) = some (joinPath H c.dir) := by
  rw [runCategory_eq_path,
    path_eq_of_fallback env (some H) c.var c.dir (Or.inl hv)]
  rfl

/-- C3: witness — `XDG_CACHE_HOME` unset, home `/home/alice` gives
`cache() = /home/alice/.cache`. -/
theorem category_falls_back_to_home_witness :
    runCategory Category.cache envAllUnset (some "/home/alice")
      = some "/home/alice/.cache" :=
  (category_falls_back_to_home Category.cache envAllUnset "/home/alice"
    (by decide)).trans (by decide)

/-- C4: for every general-rule category, setting the designated variable to
the empty string behaves identically to the variable being entirely unset,
for every environment and every answer of the home provider. -/
theorem category_empty_equals_unset (c : Category) (env : Env)
    (provider : Option String) :
    runCategory c (setVar env c.var (EnvVal.val "")) provider
      = runCategory c (setVar env c.var EnvVal.notPresent) provider := by
  rw [runCategory_eq_path, runCategory_eq_path,
    path_eq_of_fallback _ _ _ _ (Or.inr (Or.inl (by simp [setVar]))),
    path_eq_of_fallback _ _ _ _ (Or.inl (by simp [setVar]))]

/-- C5: for every general-rule category, if its designated variable is
unset or empty and the home directory cannot be resolved, the operation
returns an absent result. -/
theorem category_absent_without_home (c : Category) (env : Env)
    (hv : env c.var = EnvVal.notPresent ∨ env c.var = EnvVal.val "") :
    runCategory c env none = none := by
  rw [runCategory_eq_path,
    path_eq_of_fallback env none c.var c.dir (hv.imp id Or.inl)]
  rfl

/-- C5: witness — `XDG_CONFIG_HOME` unset and home unresolvable gives an
absent `config()`. -/
theorem category_absent_without_home_witness :
    runCategory Category.config envAllUnset none = none :=
  category_absent_without_home Category.config envAllUnset
    (Or.inl (by decide))

/-- C6: every operation is a deterministic, side-effect-free function of
the environment snapshot and the home provider's answer: two calls with an
identical snapshot and identical provider answer return identical results. -/
theorem operations_deterministic (o : Op) (env1 env2 : Env)
    (p1 p2 : Option String) (he : ∀ n, env1 n = env2 n) (hp : p1 = p2) :
    runOp o env1 p1 = runOp o env2 p2 := by
  have hee : env1 = env2 := funext he
  rw [hee, hp]

/-- C6: witness at a concrete snapshot and provider answer. -/
theorem operations_deterministic_witness :
    runOp Op.data envCacheSet (some "/home/alice")
      = runOp Op.data envCacheSet (some "/home/alice") :=
  operations_deterministic Op.data envCacheSet envCacheSet
    (some "/home/alice") (some "/home/alice") (fun _ => rfl) rfl

/-- C7: `home` is delegated entirely to the home directory provider: for
every environment snapshot, it returns exactly the provider's answer, with
no environment-variable override tier of its own. -/
theorem home_delegates_to_provider (env : Env) (provider : Option String) :
    runOp Op.home env provider = provider := rfl

/-- C8: for every general-rule category, a non-empty whitespace-only value
counts as set: the operation returns that whitespace string exactly as the
path, and the home fallback is not used. -/
theorem category_whitespace_counts_as_set (c : Category) (env : Env)
    (provider : Option String) (s : String)
    (hv : env c.var = EnvVal.val s) (hs : s ≠ "")
    (_hws : ∀ ch ∈ s.data, ch.isWhitespace) :
    runCategory c env provider = some s := by
  rw [runCategory_eq_path]
  exact path_eq_of_val env provider c.var c.dir s hv hs

/-- C8: witness — `XDG_CACHE_HOME` set to a single space gives
`cache() = " "`. -/
theorem category_whitespace_counts_as_set_witness :
    runCategory Category.cache envCacheBlank (some "/home/alice")
      = some " " :=
  category_whitespace_counts_as_set Category.cache envCacheBlank
    (some "/home/alice") " " (by decide) (by decide) (by decide)

/-- C9: noninterference with the home provider — when a general-rule
category's variable is set to a non-empty string, the result is the same
for every possible answer of the home provider, including an absent one. -/
theorem category_independent_of_home (c : Category) (env : Env)
    (p1 p2 : Option String) (s : String)
    (hv : env c.var = EnvVal.val s) (hs : s ≠ "") :
    runCategory c env p1 = runCategory c env p2 := by
  rw [runCategory_eq_path, runCategory_eq_path,
    path_eq_of_val env p1 c.var c.dir s hv hs,
    path_eq_of_val env p2 c.var c.dir s hv hs]

/-- C9: witness — with `XDG_CACHE_HOME` set, `cache()` agrees between a
resolving and an absent home provider. -/
theorem category_independent_of_home_witness :
    runCategory Category.cache envCacheSet (some "/home/alice")
      = runCategory Category.cache envCacheSet none :=
  category_independent_of_home Category.cache envCacheSet
    (some "/home/alice") none "/tmp/c" (by decide) (by decide)

/-- C10: a variable present but not unicode is treated exactly like an
unset variable — each conclusion under its own variable's hypothesis: if a
general-rule category's variable is non-unicode, that operation falls back
to the home-joined default, and if `XDG_RUNTIME_DIR` is non-unicode,
`runtime` returns an absent result. -/
theorem non_unicode_treated_as_unset (c : Category) (env : Env)
    (provider : Option String) :
    (env c.var = EnvVal.notUnicode →
        runCategory c env provider
          = provider.map (fun H => joinPath H c.dir))
    ∧ (env "XDG_RUNTIME_DIR" = EnvVal.notUnicode →
        runtime env provider = none) := by
  constructor
  · intro hc
    rw [runCategory_eq_path]
    exact path_eq_of_fallback env provider c.var c.dir (Or.inr (Or.inr hc))
  · intro hr
    simp [runtime, envVarResult, hr, Except.map, Except.toOption]

/-- C10: witness — with only `XDG_CACHE_HOME` non-unicode, `cache()` falls
back to `/home/alice/.cache`; with only `XDG_RUNTIME_DIR` non-unicode,
`runtime()` is absent. -/
theorem non_unicode_treated_as_unset_witness :
    runCategory Category.cache envCacheBad (some "/home/alice")
        = some "/home/alice/.cache"
      ∧ runtime envRuntimeBad (some "/home/alice") = none := by
  have h1 := (non_unicode_treated_as_unset Category.cache envCacheBad
    (some "/home/alice")).1 (by decide)
  have h2 := (non_unicode_treated_as_unset Category.cache envRuntimeBad
    (some "/home/alice")).2 (by decide)
  exact ⟨h1.trans (by decide), h2⟩
